import Mathlib

/-!
Shallow embedding of the KSV-10 bilingual term-lookup assistant
(`src/app.py`) and its user-store CRUD script (`src/delete_user.py`).

External collaborators (the language detector, the Meilisearch index, the
LLM completion service, the chat session, the sqlite user store) are
reified as oracles carried in an environment record; the orchestrator's
observable behaviour (messages sent, chat operations, queries issued,
database writes, uncaught exceptions) is returned as an explicit trace.
-/

namespace KSV10

/-- A Meilisearch hit: a document with optional `lang_a`, `lang_b` and
`source` attributes. `app.py` reads them with `hit.get(key, default)`,
so absent attributes are `none` here and the defaults are applied at the
rendering site, as in the source. -/
structure Hit where
  lang_a : Option String
  lang_b : Option String
  source : Option String
deriving DecidableEq, Repr

/-- A Chainlit action affordance: `cl.Action(name=..., payload={"term": ...},
label=...)`. The payload in `app.py` always carries a single `term` key;
`payloadTerm` is `action.payload.get("term")`. -/
structure CLAction where
  name : String
  payloadTerm : Option String
  label : String
deriving DecidableEq, Repr

/-- An outbound chat message: content plus attached action affordances. -/
structure OutMessage where
  content : String
  actions : List CLAction
deriving DecidableEq, Repr

/-- A chat display operation. `app.py` only ever calls
`cl.Message(...).send()`, which appends a new message; the `update`
constructor (replacing the message at an existing slot in place) exists in
the Chainlit API but is captured here so that "replaced in place" versus
"appended as a new turn" is expressible. -/
inductive ChatOp where
  | send (m : OutMessage)
  | update (idx : Nat) (m : OutMessage)
deriving DecidableEq, Repr

/-- Holds (`true`) exactly on `ChatOp.send`, i.e. on operations that append a new
message rather than replacing an existing one. -/
def isSendOp : ChatOp → Bool
  | .send _ => true
  | .update _ _ => false

/-- The action affordances attached by a chat operation. -/
def opActions : ChatOp → List CLAction
  | .send m => m.actions
  | .update _ m => m.actions

/-- A query issued to the external search index.
`restrictFields = some fs` models a search restricted to the attributes
`fs`; `restrictFields = none` models `meili_index.search(term)` with no
attribute restriction, i.e. a search over all searchable attributes
(`app.py` line 136's own comment: the term is searched in all searchable
attributes `lang_a`, `lang_b`). -/
structure SearchQuery where
  q : String
  restrictFields : Option (List String)
deriving DecidableEq, Repr

/-- A row of the `users` table: `{username, password_hash, role}`
(the autoincrement `id` plays no role in any claim). -/
structure Account where
  username : String
  password_hash : String
  role : String
deriving DecidableEq, Repr

/-- Oracles for the external collaborators of the `main` message handler:
the chat session identity (`cl.context.session.user.identifier`, which may
raise), bcrypt verify/hash, whether the sqlite `UPDATE` in
`change_password_in_db` succeeds, the result of `langdetect.detect`
(which may raise), and the result of `meili_index.search` (which may
raise a transport error carrying a message). -/
structure Env where
  sessionUser : Except String String
  verify : String → String → Bool
  hash : String → String
  dbUpdateOk : Bool
  detectResult : Except Unit String
  searchResult : Except String (List Hit)

/-- The observable outcome of one `main` turn: chat operations performed,
index queries issued, completion calls made, the value bound to `lang`
(when the classification line ran), password-hash writes `(username,
new_hash)` performed on the user store, an uncaught exception if one
propagated out of the handler, and the user store after the turn. -/
structure MainResult where
  ops : List ChatOp
  lookupQueries : List SearchQuery
  translatorCalls : Nat
  detectedLang : Option String
  dbWrites : List (String × String)
  exception : Option String
  newStore : String → Option Account

/-- Python `str.strip()`: remove leading and trailing whitespace. Defined
by structural recursion over the character list so that it evaluates
inside the kernel. -/
def pyStrip (s : String) : String :=
  ⟨((s.data.dropWhile Char.isWhitespace).reverse.dropWhile
      Char.isWhitespace).reverse⟩

/-- Python `str.startswith(pre)`. -/
def pyStartsWith (s pre : String) : Bool :=
  s.data.take pre.data.length == pre.data

/-- Python `str.lower()` (ASCII case folding, which is all the sources
use it for). -/
def pyLower (s : String) : String :=
  ⟨s.data.map Char.toLower⟩

/-- Worker for `pySplit`: `acc` holds the current word reversed. -/
def pySplitChars : List Char → List Char → List String
  | [], acc => if acc = [] then [] else [⟨acc.reverse⟩]
  | c :: rest, acc =>
    if c.isWhitespace then
      if acc = [] then pySplitChars rest []
      else ⟨acc.reverse⟩ :: pySplitChars rest []
    else pySplitChars rest (c :: acc)

/-- Python `str.split()` with no separator: split on whitespace runs,
dropping empty pieces. -/
def pySplit (s : String) : List String :=
  pySplitChars s.data []

/-- Lines 131–134 of `app.py`: `lang = detect(term)` under a bare
`try/except` that defaults to `"en"`. -/
def classifyLang (r : Except Unit String) : String :=
  match r with
  | .ok l => l
  | .error _ => "en"

/-- Line 137 of `app.py`: `meili_index.search(term)` — the query text is
the term and no attribute restriction is passed. -/
def mainSearchQuery (term : String) : SearchQuery :=
  { q := term, restrictFields := none }

/-- Lines 141–144 of `app.py`: the rendered block for one hit. -/
def hitBlock (h : Hit) : String :=
  "Rezultat: " ++ h.lang_a.getD "" ++ " / " ++ h.lang_b.getD "" ++ "\n" ++
  "Sursa: " ++ h.source.getD "N/A" ++ "\n\n"

/-- The `results_str` accumulation loop of lines 140–144. -/
def resultsStr (hits : List Hit) : String :=
  match hits with
  | [] => ""
  | h :: t => hitBlock h ++ resultsStr t

/-- Lines 148/152 of `app.py`: the "Caută cu AI (LLM)" action with the
term as payload. -/
def askLLMAction (term : String) : CLAction :=
  { name := "ask_llm", payloadTerm := some term, label := "Caută cu AI (LLM)" }

/-- Line 94 of `app.py`: the usage-help message for `/schimba_parola`. -/
def usageMsg : String :=
  "Comandă invalidă. Folosiți: /schimba_parola <parola_veche> <parola_noua>"

/-- The `@cl.on_message` handler `main` of `app.py` (lines 87–153), as a
function from the oracle environment, the current user store and the raw
inbound message to the turn's observable outcome. Control flow mirrors
the source: strip; `/schimba_parola` command branch (arity check, session
identification, user fetch, old-password verification, hash update);
otherwise the dictionary branch (empty-term check, `detect` with `"en"`
default, unrestricted index search — which, having no `try` around it,
propagates a search exception out of the handler — then the hit / no-hit
presentation, each carrying the `ask_llm` affordance). -/
def mainHandler (env : Env) (store : String → Option Account)
    (content : String) : MainResult :=
  let msg_content := pyStrip content
  if pyStartsWith msg_content "/schimba_parola" then
    let parts := pySplit msg_content
    if parts.length ≠ 3 then
      { ops := [ChatOp.send { content := usageMsg, actions := [] }],
        lookupQueries := [], translatorCalls := 0, detectedLang := none,
        dbWrites := [], exception := none, newStore := store }
    else
      let old_password := parts.getD 1 ""
      let new_password := parts.getD 2 ""
      match env.sessionUser with
      | .error e =>
        let m : OutMessage :=
          { content := "Eroare: Nu am putut identifica utilizatorul curent: " ++ e,
            actions := [] }
        { ops := [ChatOp.send m],
          lookupQueries := [], translatorCalls := 0, detectedLang := none,
          dbWrites := [], exception := none, newStore := store }
      | .ok user_identifier =>
        match store user_identifier with
        | none =>
          let m : OutMessage :=
            { content := "Eroare: Utilizatorul nu a fost găsit în baza de date.",
              actions := [] }
          { ops := [ChatOp.send m],
            lookupQueries := [], translatorCalls := 0, detectedLang := none,
            dbWrites := [], exception := none, newStore := store }
        | some user_db_data =>
          if env.verify old_password user_db_data.password_hash = false then
            let m : OutMessage :=
              { content := "Parola veche este incorectă.", actions := [] }
            { ops := [ChatOp.send m],
              lookupQueries := [], translatorCalls := 0, detectedLang := none,
              dbWrites := [], exception := none, newStore := store }
          else
            let new_password_hash := env.hash new_password
            if env.dbUpdateOk then
              let m : OutMessage :=
                { content := "Parola a fost schimbată cu succes!", actions := [] }
              { ops := [ChatOp.send m],
                lookupQueries := [], translatorCalls := 0, detectedLang := none,
                dbWrites := [(user_db_data.username, new_password_hash)],
                exception := none,
                newStore := fun u =>
                  if u = user_db_data.username then
                    some { user_db_data with password_hash := new_password_hash }
                  else store u }
            else
              let m : OutMessage :=
                { content := "A apărut o eroare la schimbarea parolei. Vă rugăm încercați mai târziu.",
                  actions := [] }
              { ops := [ChatOp.send m],
                lookupQueries := [], translatorCalls := 0, detectedLang := none,
                dbWrites := [], exception := none, newStore := store }
  else
    let term := msg_content
    if term = "" then
      let m : OutMessage :=
        { content := "Vă rog să introduceți un termen.", actions := [] }
      { ops := [ChatOp.send m],
        lookupQueries := [], translatorCalls := 0, detectedLang := none,
        dbWrites := [], exception := none, newStore := store }
    else
      let lang := classifyLang env.detectResult
      match env.searchResult with
      | .error e =>
        { ops := [], lookupQueries := [mainSearchQuery term],
          translatorCalls := 0, detectedLang := some lang,
          dbWrites := [], exception := some e, newStore := store }
      | .ok hits =>
        if hits ≠ [] then
          let m : OutMessage :=
            { content := "**Din Baza de Cunoștințe:**\n\n" ++ resultsStr hits,
              actions := [askLLMAction term] }
          { ops := [ChatOp.send m],
            lookupQueries := [mainSearchQuery term], translatorCalls := 0,
            detectedLang := some lang, dbWrites := [], exception := none,
            newStore := store }
        else
          let m : OutMessage :=
            { content := "Termenul **'" ++ term ++ "'** nu a fost găsit. Doriți să încerc cu AI?",
              actions := [askLLMAction term] }
          { ops := [ChatOp.send m],
            lookupQueries := [mainSearchQuery term], translatorCalls := 0,
            detectedLang := some lang, dbWrites := [], exception := none,
            newStore := store }

/-- Oracle for the `litellm.completion` call in `ask_llm`: either the
response content `response.choices[0].message.content`, or the message of
the exception the call raised. -/
structure LLMEnv where
  completionResult : Except String String

/-- The observable outcome of one `ask_llm` invocation: chat operations,
number of completion calls made, and an uncaught exception if one escaped
(the whole completion-and-send block sits in a `try/except Exception`, so
this is always `none`). -/
structure AskLLMResult where
  ops : List ChatOp
  translatorCalls : Nat
  exception : Option String

/-- Python `str(...)` of an `Optional[str]` as interpolated by an f-string:
`None` renders as `"None"`. -/
def pyOptStr (o : Option String) : String :=
  match o with
  | some s => s
  | none => "None"

/-- The `@cl.action_callback("ask_llm")` handler of `app.py` (lines
155–177): read the term from the action payload, send the thinking
message, call the completion service once, and send either the AI result
or the caught error as a further message. The callback reads no session
state and records no token consumption; each delivery of the payload runs
the same code. -/
def ask_llm (env : LLMEnv) (payloadTerm : Option String) : AskLLMResult :=
  let term := payloadTerm
  let thinking : OutMessage :=
    { content := "Apelez la AI pentru '" ++ pyOptStr term ++ "'... 🧠",
      actions := [] }
  match env.completionResult with
  | .ok llm_response =>
    let final : OutMessage :=
      { content := "**Rezultat de la AI:**\n\n" ++ llm_response, actions := [] }
    { ops := [ChatOp.send thinking, ChatOp.send final],
      translatorCalls := 1, exception := none }
  | .error e =>
    let final : OutMessage :=
      { content := "A apărut o eroare la contactarea serviciului AI: " ++ e,
        actions := [] }
    { ops := [ChatOp.send thinking, ChatOp.send final],
      translatorCalls := 1, exception := none }

/-- The host delivering the same `ask_llm` action payload twice. Since the
callback keeps no consumption state, the second delivery is a second
invocation of the same function on the same payload. -/
def deliverTwice (env : LLMEnv) (payloadTerm : Option String) :
    AskLLMResult × AskLLMResult :=
  (ask_llm env payloadTerm, ask_llm env payloadTerm)

/-- Outcome of `delete_user.py`'s `delete_user`: the user table after the
call and the message printed. -/
structure DeleteResult where
  newStore : List Account
  message : String
deriving DecidableEq, Repr

/-- The count `SELECT COUNT(*) FROM users WHERE role = 'admin'` (line 27 of
`delete_user.py`). -/
def adminCount (store : List Account) : Nat :=
  (store.filter (fun a => a.role = "admin")).length

/-- The function `delete_user` from `src/delete_user.py` (lines 8–47): look the exact
username up; if absent report not-found; if the username lowercases to
`admin` and at most one row has role `admin`, refuse; otherwise delete the
row and report the post-delete verification result. -/
def delete_user (store : List Account) (username : String) : DeleteResult :=
  if (store.find? (fun a => a.username = username)).isNone then
    { newStore := store,
      message := "Error: User '" ++ username ++ "' not found." }
  else if pyLower username = "admin" then
    if adminCount store ≤ 1 then
      { newStore := store,
        message := "Error: Cannot delete the last admin user." }
    else
      let rest := store.filter (fun a => a.username ≠ username)
      { newStore := rest,
        message :=
          if (rest.find? (fun a => a.username = username)).isNone then
            "User '" ++ username ++ "' deleted successfully."
          else
            "Error: Failed to delete user '" ++ username ++ "'." }
  else
    let rest := store.filter (fun a => a.username ≠ username)
    { newStore := rest,
      message :=
        if (rest.find? (fun a => a.username = username)).isNone then
          "User '" ++ username ++ "' deleted successfully."
        else
          "Error: Failed to delete user '" ++ username ++ "'." }

/-! ## Helper lemmas -/

/-- On the dictionary path (non-command, nonempty term) exactly one index
query is issued: the raw term with no attribute restriction. -/
theorem dict_lookupQueries (env : Env) (store : String → Option Account)
    (raw : String)
    (hcmd : pyStartsWith (pyStrip raw) "/schimba_parola" = false)
    (hne : pyStrip raw ≠ "") :
    (mainHandler env store raw).lookupQueries = [mainSearchQuery (pyStrip raw)] := by
  unfold mainHandler
  simp only [hcmd, Bool.false_eq_true, if_false, hne, ite_false]
  rcases hsr : env.searchResult with e | hits
  · simp
  · by_cases hh : hits = [] <;> simp [hh]

/-- On the dictionary path the `lang` binding is the classifier output. -/
theorem dict_detectedLang (env : Env) (store : String → Option Account)
    (raw : String)
    (hcmd : pyStartsWith (pyStrip raw) "/schimba_parola" = false)
    (hne : pyStrip raw ≠ "") :
    (mainHandler env store raw).detectedLang =
      some (classifyLang env.detectResult) := by
  unfold mainHandler
  simp only [hcmd, Bool.false_eq_true, if_false, hne, ite_false]
  rcases hsr : env.searchResult with e | hits
  · simp
  · by_cases hh : hits = [] <;> simp [hh]

/-- Every member's rendered block occurs inside `resultsStr`. -/
theorem resultsStr_mem_split (hits : List Hit) (h : Hit) (hm : h ∈ hits) :
    ∃ pre post, resultsStr hits = pre ++ hitBlock h ++ post := by
  induction hits with
  | nil => cases hm
  | cons a t ih =>
    rcases List.mem_cons.mp hm with rfl | hm
    · exact ⟨"", resultsStr t, by simp [resultsStr]⟩
    · obtain ⟨pre, post, hp⟩ := ih hm
      exact ⟨hitBlock a ++ pre, post, by
        simp [resultsStr, hp, String.append_assoc]⟩

/-! ## Claim C3 — action tokens are not single-use -/

/-- Completion oracle used for the C3 scenario. -/
def envC3 : LLMEnv := { completionResult := .ok "**casă** = house" }

/-- C3: refuted. Delivering the `ask_llm` payload for "casă" a second time
does trigger a second translator call (one completion call in the second
invocation) and answers with the ordinary AI result, not an
invalid-token / "cannot complete this action" message. -/
theorem c3_counterexample :
    (deliverTwice envC3 (some "casă")).2.translatorCalls = 1 ∧
    (deliverTwice envC3 (some "casă")).2.ops =
      [ChatOp.send ⟨"Apelez la AI pentru 'casă'... 🧠", []⟩,
       ChatOp.send ⟨"**Rezultat de la AI:**\n\n**casă** = house", []⟩] :=
  ⟨rfl, rfl⟩

/-- C3 amended: the `ask_llm` callback keeps no consumption state, so a
second delivery of the same action payload behaves exactly like the
first and issues one translator call of its own; no invocation is ever
answered with an invalid-token message. -/
theorem c3_amended_not_single_use (env : LLMEnv) (p : Option String) :
    (deliverTwice env p).2 = (deliverTwice env p).1 ∧
    (deliverTwice env p).2.translatorCalls = 1 := by
  refine ⟨rfl, ?_⟩
  rcases env with ⟨cr⟩
  cases cr <;> rfl

/-! ## Claim C4 — no in-place replacement, no regenerate affordance -/

/-- Completion oracle used for the C4 scenario. -/
def envC4 : LLMEnv := { completionResult := .ok "**casă** = house" }

/-- C4: refuted. For the term "casă" every chat operation performed by the
AI callback is a `send` (a new appended message, never an in-place
update of an existing one), and neither the answer nor the thinking
message carries any affordance — so no regenerate affordance exists and
nothing is replaced in place. -/
theorem c4_counterexample :
    (ask_llm envC4 (some "casă")).ops.all isSendOp = true ∧
    (ask_llm envC4 (some "casă")).ops.map opActions = [[], []] :=
  ⟨rfl, rfl⟩

/-- C4 amended: re-invoking the AI action for a term issues another
translator call for that term, but the result is appended as new
messages (all chat operations are sends, none is an update), and the
displayed answer carries no affordance at all — in particular no
regenerate affordance. -/
theorem c4_amended_appends (env : LLMEnv) (p : Option String) :
    (ask_llm env p).translatorCalls = 1 ∧
    (ask_llm env p).ops.all isSendOp = true ∧
    ∀ op ∈ (ask_llm env p).ops, opActions op = [] := by
  rcases env with ⟨cr⟩
  cases cr <;> simp [ask_llm, isSendOp, opActions]

/-! ## Claim C6 — translator failure surfaces as a displayed message -/

/-- C6: for every completion failure the callback sends the error as an
ordinary displayable chat message (a `send`, the same channel the
success path uses) and no exception escapes the callback. -/
theorem c6_translator_failure (env : LLMEnv) (p : Option String) (e : String)
    (h : env.completionResult = .error e) :
    (ask_llm env p).ops =
      [ChatOp.send ⟨"Apelez la AI pentru '" ++ pyOptStr p ++ "'... 🧠", []⟩,
       ChatOp.send ⟨"A apărut o eroare la contactarea serviciului AI: " ++ e, []⟩] ∧
    (ask_llm env p).exception = none := by
  simp [ask_llm, h]

/-- Completion oracle used for the C6 witness. -/
def envC6 : LLMEnv := { completionResult := .error "Timeout" }

/-- C6 witness at a concrete failing completion call. -/
theorem c6_translator_failure_witness :
    envC6.completionResult = Except.error "Timeout" ∧
    ((ask_llm envC6 (some "dog")).ops =
      [ChatOp.send ⟨"Apelez la AI pentru 'dog'... 🧠", []⟩,
       ChatOp.send ⟨"A apărut o eroare la contactarea serviciului AI: Timeout", []⟩] ∧
     (ask_llm envC6 (some "dog")).exception = none) :=
  ⟨rfl, c6_translator_failure envC6 (some "dog") "Timeout" rfl⟩

/-! ## Claim C1 — the index query is not language-restricted -/

/-- Environment for the C1 scenario: detection succeeds and returns the
English tag, the index call returns no hits. -/
def envC1 : Env :=
  { sessionUser := .error "no session", verify := fun _ _ => false,
    hash := fun p => p, dbUpdateOk := true, detectResult := .ok "en",
    searchResult := .ok [] }

/-- C1: refuted. For the input "dog", classified EN, the single index
query issued carries no field restriction (`restrictFields = none`
models `meili_index.search(term)` with no attribute restriction): the
lookup is issued unrestricted over all searchable fields, not restricted
to the RO field. -/
theorem c1_counterexample :
    classifyLang envC1.detectResult = "en" ∧
    (mainHandler envC1 (fun _ => none) "dog").lookupQueries =
      [{ q := "dog", restrictFields := none }] :=
  ⟨rfl, rfl⟩

/-- C1 amended: for every non-command, nonempty input term, whatever the
classification outcome, the orchestrator issues exactly one index query,
whose text is the trimmed term and which carries no field restriction
(the classification result is never used to restrict the query). -/
theorem c1_amended_unrestricted (env : Env) (store : String → Option Account)
    (raw : String)
    (hcmd : pyStartsWith (pyStrip raw) "/schimba_parola" = false)
    (hne : pyStrip raw ≠ "") :
    (mainHandler env store raw).lookupQueries =
      [{ q := pyStrip raw, restrictFields := none }] :=
  dict_lookupQueries env store raw hcmd hne

/-- C1 amended, witness at the concrete input "dog". -/
theorem c1_amended_unrestricted_witness :
    pyStartsWith (pyStrip "dog") "/schimba_parola" = false ∧ pyStrip "dog" ≠ "" ∧
    (mainHandler envC1 (fun _ => none) "dog").lookupQueries =
      [{ q := pyStrip "dog", restrictFields := none }] :=
  ⟨rfl, by decide,
   c1_amended_unrestricted envC1 (fun _ => none) "dog" rfl (by decide)⟩

/-! ## Claim C2 — an index transport error is not caught -/

/-- Environment for the C2 scenario: the index call raises a transport
error. -/
def envC2 : Env :=
  { sessionUser := .error "no session", verify := fun _ _ => false,
    hash := fun p => p, dbUpdateOk := true, detectResult := .ok "en",
    searchResult := .error "MeilisearchCommunicationError: Connection refused" }

/-- C2: refuted. When the index call for "dog" raises a transport error,
the error propagates out of the message handler uncaught and no
user-facing message at all is produced for that turn — in particular no
fallback affordance is offered. -/
theorem c2_counterexample :
    (mainHandler envC2 (fun _ => none) "dog").exception =
      some "MeilisearchCommunicationError: Connection refused" ∧
    (mainHandler envC2 (fun _ => none) "dog").ops = [] :=
  ⟨rfl, rfl⟩

/-- C2 amended: for every non-command, nonempty term, a transport error
raised by the index call propagates out of the handler as an uncaught
exception; the turn sends no message and invokes no translator. -/
theorem c2_amended_propagates (env : Env) (store : String → Option Account)
    (raw : String) (e : String)
    (hcmd : pyStartsWith (pyStrip raw) "/schimba_parola" = false)
    (hne : pyStrip raw ≠ "")
    (hs : env.searchResult = .error e) :
    (mainHandler env store raw).exception = some e ∧
    (mainHandler env store raw).ops = [] ∧
    (mainHandler env store raw).translatorCalls = 0 := by
  unfold mainHandler
  simp [hcmd, hne, hs]

/-- C2 amended, witness at the concrete failing index call. -/
theorem c2_amended_propagates_witness :
    pyStartsWith (pyStrip "dog") "/schimba_parola" = false ∧ pyStrip "dog" ≠ "" ∧
    envC2.searchResult =
      Except.error "MeilisearchCommunicationError: Connection refused" ∧
    ((mainHandler envC2 (fun _ => none) "dog").exception =
      some "MeilisearchCommunicationError: Connection refused" ∧
     (mainHandler envC2 (fun _ => none) "dog").ops = [] ∧
     (mainHandler envC2 (fun _ => none) "dog").translatorCalls = 0) :=
  ⟨rfl, by decide, rfl,
   c2_amended_propagates envC2 (fun _ => none) "dog" _ rfl (by decide) rfl⟩

/-! ## Claim C5 — empty input short-circuits -/

/-- C5: for every inbound message that is empty or whitespace-only after
trimming, the handler sends only the prompt-to-retry message (with no
affordance attached, so no path to the translator is offered), issues no
index query, makes no translator call, and raises nothing. -/
theorem c5_empty_input (env : Env) (store : String → Option Account)
    (raw : String) (h : pyStrip raw = "") :
    (mainHandler env store raw).ops =
      [ChatOp.send ⟨"Vă rog să introduceți un termen.", []⟩] ∧
    (mainHandler env store raw).lookupQueries = [] ∧
    (mainHandler env store raw).translatorCalls = 0 ∧
    (mainHandler env store raw).exception = none := by
  unfold mainHandler
  rw [h]
  exact ⟨rfl, rfl, rfl, rfl⟩

/-- Environment for the C5 witness. -/
def envC5 : Env :=
  { sessionUser := .error "no session", verify := fun _ _ => false,
    hash := fun p => p, dbUpdateOk := true, detectResult := .ok "en",
    searchResult := .ok [] }

/-- C5 witness at the whitespace-only input `"   "`. -/
theorem c5_empty_input_witness :
    pyStrip "   " = "" ∧
    ((mainHandler envC5 (fun _ => none) "   ").ops =
      [ChatOp.send ⟨"Vă rog să introduceți un termen.", []⟩] ∧
     (mainHandler envC5 (fun _ => none) "   ").lookupQueries = [] ∧
     (mainHandler envC5 (fun _ => none) "   ").translatorCalls = 0 ∧
     (mainHandler envC5 (fun _ => none) "   ").exception = none) :=
  ⟨by decide, c5_empty_input envC5 (fun _ => none) "   " (by decide)⟩

/-! ## Claim C7 — detection errors default to EN and flow continues -/

/-- C7: a detection error is absorbed: the classifier yields the default
tag `"en"`, the handler binds that tag, and processing continues to the
lookup step (the index query for the term is issued). -/
theorem c7_detect_default (env : Env) (store : String → Option Account)
    (raw : String)
    (hcmd : pyStartsWith (pyStrip raw) "/schimba_parola" = false)
    (hne : pyStrip raw ≠ "")
    (hd : env.detectResult = .error ()) :
    classifyLang env.detectResult = "en" ∧
    (mainHandler env store raw).detectedLang = some "en" ∧
    (mainHandler env store raw).lookupQueries = [mainSearchQuery (pyStrip raw)] := by
  have hcl : classifyLang env.detectResult = "en" := by rw [hd]; rfl
  refine ⟨hcl, ?_, dict_lookupQueries env store raw hcmd hne⟩
  rw [dict_detectedLang env store raw hcmd hne, hcl]

/-- Environment for the C7 witness: `detect` raises. -/
def envC7 : Env :=
  { sessionUser := .error "no session", verify := fun _ _ => false,
    hash := fun p => p, dbUpdateOk := true, detectResult := .error (),
    searchResult := .ok [] }

/-- C7 witness at the concrete input "xyzzy123" with a failing detector. -/
theorem c7_detect_default_witness :
    pyStartsWith (pyStrip "xyzzy123") "/schimba_parola" = false ∧
    pyStrip "xyzzy123" ≠ "" ∧ envC7.detectResult = Except.error () ∧
    (classifyLang envC7.detectResult = "en" ∧
     (mainHandler envC7 (fun _ => none) "xyzzy123").detectedLang = some "en" ∧
     (mainHandler envC7 (fun _ => none) "xyzzy123").lookupQueries =
       [mainSearchQuery (pyStrip "xyzzy123")]) :=
  ⟨rfl, by decide, rfl,
   c7_detect_default envC7 (fun _ => none) "xyzzy123" rfl (by decide) rfl⟩

/-! ## Claim C8 — presentation of an accepted index match -/

/-- C8: whenever the index returns a nonempty hit list, the handler sends
a single message whose content contains, for every returned hit, that
hit's rendered block — the translated pair `lang_a / lang_b` and its
`Sursa:` provenance tag — and whose attached affordances are exactly the
"Caută cu AI (LLM)" action carrying the term. -/
theorem c8_match_presentation (env : Env) (store : String → Option Account)
    (raw : String) (hits : List Hit) (h : Hit)
    (hcmd : pyStartsWith (pyStrip raw) "/schimba_parola" = false)
    (hne : pyStrip raw ≠ "")
    (hs : env.searchResult = .ok hits)
    (hmem : h ∈ hits) :
    ∃ m : OutMessage,
      (mainHandler env store raw).ops = [ChatOp.send m] ∧
      (∃ pre post, m.content = pre ++ hitBlock h ++ post) ∧
      m.actions = [askLLMAction (pyStrip raw)] := by
  have hnil : hits ≠ [] := List.ne_nil_of_mem hmem
  obtain ⟨pre, post, hp⟩ := resultsStr_mem_split hits h hmem
  refine ⟨⟨"**Din Baza de Cunoștințe:**\n\n" ++ resultsStr hits,
          [askLLMAction (pyStrip raw)]⟩, ?_, ?_, rfl⟩
  · unfold mainHandler
    simp [hcmd, hne, hs, hnil]
  · exact ⟨"**Din Baza de Cunoștințe:**\n\n" ++ pre, post, by
      rw [hp]; simp [String.append_assoc]⟩

/-- The index entry of end-to-end scenario 1. -/
def hitDog : Hit :=
  { lang_a := some "dog", lang_b := some "câine", source := some "DEX" }

/-- Environment for the C8 witness: the index returns the "dog" entry. -/
def envC8 : Env :=
  { sessionUser := .error "no session", verify := fun _ _ => false,
    hash := fun p => p, dbUpdateOk := true, detectResult := .ok "en",
    searchResult := .ok [hitDog] }

/-- C8 witness at end-to-end scenario 1 (input "dog", entry
dog / câine with source DEX). -/
theorem c8_match_presentation_witness :
    hitDog ∈ [hitDog] ∧
    ∃ m : OutMessage,
      (mainHandler envC8 (fun _ => none) "dog").ops = [ChatOp.send m] ∧
      (∃ pre post, m.content = pre ++ hitBlock hitDog ++ post) ∧
      m.actions = [askLLMAction (pyStrip "dog")] :=
  ⟨List.mem_singleton.mpr rfl,
   c8_match_presentation envC8 (fun _ => none) "dog" [hitDog] hitDog rfl
     (by decide) rfl (List.mem_singleton.mpr rfl)⟩

/-! ## Claim C9 — the password-change command -/

/-- C9: for every inbound message whose stripped content starts with the
password-change command, assuming the store's UPDATE succeeds when
attempted: with an arity other than three the usage help is shown and
the store is untouched; when the content splits into exactly the three
parts `[w0, oldp, newp]`, the store is written exactly when the session
user is identified, their account row exists, and the supplied old
password `oldp` verifies against the hash currently stored there; and on
verification failure the error message is shown and the store is
untouched. -/
theorem c9_password_change (env : Env) (store : String → Option Account)
    (raw : String) (w0 oldp newp : String)
    (hcmd : pyStartsWith (pyStrip raw) "/schimba_parola" = true)
    (hdb : env.dbUpdateOk = true) :
    ((pySplit (pyStrip raw)).length ≠ 3 →
      (mainHandler env store raw).ops = [ChatOp.send ⟨usageMsg, []⟩] ∧
      (mainHandler env store raw).dbWrites = [] ∧
      ∀ u, (mainHandler env store raw).newStore u = store u) ∧
    (pySplit (pyStrip raw) = [w0, oldp, newp] →
      ((mainHandler env store raw).dbWrites ≠ [] ↔
        ∃ uid acct, env.sessionUser = Except.ok uid ∧ store uid = some acct ∧
          env.verify oldp acct.password_hash = true) ∧
      (∀ uid acct, env.sessionUser = Except.ok uid → store uid = some acct →
        env.verify oldp acct.password_hash = false →
        (mainHandler env store raw).ops =
          [ChatOp.send ⟨"Parola veche este incorectă.", []⟩] ∧
        ∀ u, (mainHandler env store raw).newStore u = store u)) := by
  constructor
  · intro hlen
    refine ⟨?_, ?_, fun u => ?_⟩ <;>
      (unfold mainHandler; simp [hcmd, hlen])
  · intro hsplit
    rcases hsu : env.sessionUser with e | uid
    · have hW : (mainHandler env store raw).dbWrites = [] := by
        unfold mainHandler; simp [hcmd, hsplit, hsu]
      constructor
      · rw [hW]
        constructor
        · intro h; exact absurd rfl h
        · rintro ⟨uid, acct, huid, -⟩
          exact Except.noConfusion huid
      · intro uid acct huid
        exact Except.noConfusion huid
    · rcases hgu : store uid with _ | acct
      · have hW : (mainHandler env store raw).dbWrites = [] := by
          unfold mainHandler; simp [hcmd, hsplit, hsu, hgu]
        constructor
        · rw [hW]
          constructor
          · intro h; exact absurd rfl h
          · rintro ⟨uid', acct', huid, hacct, -⟩
            injection huid with h
            subst h
            rw [hgu] at hacct
            exact Option.noConfusion hacct
        · intro uid' acct' huid hacct
          injection huid with h
          subst h
          rw [hgu] at hacct
          exact Option.noConfusion hacct
      · by_cases hv : env.verify oldp acct.password_hash = false
        · have hW : (mainHandler env store raw).dbWrites = [] := by
            unfold mainHandler; simp [hcmd, hsplit, hsu, hgu, hv]
          have hOps : (mainHandler env store raw).ops =
              [ChatOp.send ⟨"Parola veche este incorectă.", []⟩] := by
            unfold mainHandler; simp [hcmd, hsplit, hsu, hgu, hv]
          have hNS : ∀ u, (mainHandler env store raw).newStore u = store u := by
            intro u; unfold mainHandler; simp [hcmd, hsplit, hsu, hgu, hv]
          constructor
          · rw [hW]
            constructor
            · intro h; exact absurd rfl h
            · rintro ⟨uid', acct', huid, hacct, hver⟩
              injection huid with h
              subst h
              rw [hgu] at hacct
              injection hacct with h2
              subst h2
              rw [hv] at hver
              exact Bool.noConfusion hver
          · intro uid' acct' huid hacct hver
            exact ⟨hOps, hNS⟩
        · have hv' : env.verify oldp acct.password_hash = true := by
            revert hv
            cases env.verify oldp acct.password_hash <;> simp
          have hW : (mainHandler env store raw).dbWrites =
              [(acct.username, env.hash newp)] := by
            unfold mainHandler; simp [hcmd, hsplit, hsu, hgu, hv', hdb]
          constructor
          · rw [hW]
            constructor
            · intro _
              exact ⟨uid, acct, rfl, hgu, hv'⟩
            · intro _
              simp
          · intro uid' acct' huid hacct hver
            injection huid with h
            subst h
            rw [hgu] at hacct
            injection hacct with h2
            subst h2
            rw [hv'] at hver
            exact Bool.noConfusion hver

/-- Environment for the C9 witness: session user "alice", whose stored
hash is "H1"; the verifier accepts exactly the pair ("old", "H1"). -/
def envC9 : Env :=
  { sessionUser := .ok "alice",
    verify := fun p h => p == "old" && h == "H1",
    hash := fun p => "hashed:" ++ p, dbUpdateOk := true,
    detectResult := .ok "en", searchResult := .ok [] }

/-- The user store for the C9 witness: the single account "alice". -/
def storeC9 : String → Option Account :=
  fun u => if u = "alice" then some ⟨"alice", "H1", "user"⟩ else none

/-- C9 witness at the concrete command "/schimba_parola old new". -/
theorem c9_password_change_witness :
    pyStartsWith (pyStrip "/schimba_parola old new") "/schimba_parola" = true ∧
    envC9.dbUpdateOk = true ∧
    (((pySplit (pyStrip "/schimba_parola old new")).length ≠ 3 →
      (mainHandler envC9 storeC9 "/schimba_parola old new").ops =
        [ChatOp.send ⟨usageMsg, []⟩] ∧
      (mainHandler envC9 storeC9 "/schimba_parola old new").dbWrites = [] ∧
      ∀ u, (mainHandler envC9 storeC9 "/schimba_parola old new").newStore u =
        storeC9 u) ∧
    (pySplit (pyStrip "/schimba_parola old new") =
        ["/schimba_parola", "old", "new"] →
      ((mainHandler envC9 storeC9 "/schimba_parola old new").dbWrites ≠ [] ↔
        ∃ uid acct, envC9.sessionUser = Except.ok uid ∧
          storeC9 uid = some acct ∧
          envC9.verify "old" acct.password_hash = true) ∧
      (∀ uid acct, envC9.sessionUser = Except.ok uid →
        storeC9 uid = some acct →
        envC9.verify "old" acct.password_hash = false →
        (mainHandler envC9 storeC9 "/schimba_parola old new").ops =
          [ChatOp.send ⟨"Parola veche este incorectă.", []⟩] ∧
        ∀ u, (mainHandler envC9 storeC9 "/schimba_parola old new").newStore u =
          storeC9 u))) :=
  ⟨by decide, rfl,
   c9_password_change envC9 storeC9 "/schimba_parola old new"
     "/schimba_parola" "old" "new" (by decide) rfl⟩

/-! ## Claim C10 — delete_user's last-admin guard -/

/-- C10: the last-admin guard of `delete_user` keys on the username, not
the role. First conjunct: whenever the requested username lowercases to
"admin" and the table holds at most one role-admin row, the table is left
unchanged (deletion refused, or the name was absent). Second conjunct:
a row whose username does not lowercase to "admin" is deleted whenever it
exists — its role and the number of remaining admins are never
consulted, so even a last role-admin row under another name is removed. -/
theorem c10_admin_guard (store : List Account) (username : String)
    (a : Account) :
    (pyLower username = "admin" → adminCount store ≤ 1 →
      (delete_user store username).newStore = store) ∧
    (a ∈ store → a.username = username → a.role = "admin" →
      pyLower username ≠ "admin" →
      (delete_user store username).newStore =
        store.filter (fun b => b.username ≠ username)) := by
  constructor
  · intro hlow hcnt
    unfold delete_user
    by_cases hf : (store.find? (fun a => a.username = username)).isNone
    · simp [hf]
    · simp [hf, hlow, hcnt]
  · intro hmem huser hrole hlow
    have hf : (store.find? (fun b => decide (b.username = username))).isNone
        = false := by
      rcases hfind : store.find? (fun b => decide (b.username = username))
        with _ | b
      · rw [List.find?_eq_none] at hfind
        exact absurd (by simp [huser]) (hfind a hmem)
      · rw [hfind]
        rfl
    unfold delete_user
    simp [hf, hlow]

/-- A table whose only row is the admin-named account. -/
def storeC10a : List Account := [⟨"admin", "h1", "admin"⟩]

/-- A table whose single role-admin row is named "boss". -/
def storeC10b : List Account := [⟨"boss", "h3", "admin"⟩, ⟨"alice", "h4", "user"⟩]

/-- The "boss" row of `storeC10b`. -/
def bossAcct : Account := ⟨"boss", "h3", "admin"⟩

/-- C10 witness: deleting "admin" from a one-admin table is refused and
leaves it unchanged, while deleting the last role-admin row "boss" from
the other table succeeds. -/
theorem c10_admin_guard_witness :
    (pyLower "admin" = "admin" ∧ adminCount storeC10a ≤ 1 ∧
      (delete_user storeC10a "admin").newStore = storeC10a) ∧
    (bossAcct ∈ storeC10b ∧ bossAcct.username = "boss" ∧
      bossAcct.role = "admin" ∧ pyLower "boss" ≠ "admin" ∧
      adminCount storeC10b ≤ 1 ∧
      (delete_user storeC10b "boss").newStore =
        storeC10b.filter (fun b => b.username ≠ "boss")) :=
  ⟨⟨by decide, by decide,
    (c10_admin_guard storeC10a "admin" bossAcct).1 (by decide) (by decide)⟩,
   ⟨by decide, rfl, rfl, by decide, by decide,
    (c10_admin_guard storeC10b "boss" bossAcct).2 (by decide) rfl rfl
      (by decide)⟩⟩

end KSV10
